import Mathlib

/-!
Verification of the Compute Chain SDK (`sdk/compute-chain.js` and its companion
tooling) against its natural-language specification.

The SDK is a JavaScript client for a proof-of-compute blockchain.  Pure
computations (pricing, validation, queries over fetched chain storage, config
records, source-patching tooling) are embedded shallowly below; chain storage is
modelled as association lists so that every query is executable.  On-chain logic
that lives in the Rust pallet (`pallets/ipfs-host/src/lib.rs`), which is not
among the SDK sources, is modelled from the specification and marked as such.
-/

namespace ComputeChainSDK

/-! ## Job-submission cost (compute-chain.js `submitJob`, `submitJobWithInputs`)

`submitJob` (lines 71-72):
  `const hours = Math.ceil(duration / 60);`
  `const cost = (ram * 10 + cpu * 5 + gpus * 50) * hours;`

For natural-number `duration`, `Math.ceil(duration / 60)` is the ceiling
division `(duration + 59) / 60` (exact for every `duration ≤ 2^53`, since
IEEE-754 division is correctly rounded and the quotient is never within a half
ulp of a different integer in that range; the floating-point variant of the
product itself is modelled separately below). -/

/-- Hours charged by `submitJob` (compute-chain.js line 71): the ceiling of
`duration / 60` over natural numbers. -/
def submitJobHours (duration : Nat) : Nat :=
  (duration + 59) / 60

/-- Escrowed cost computed by `submitJob` (compute-chain.js line 72), with the
default prices ramPrice = 10, cpuPrice = 5, gpuPrice = 50 hard-coded in the
source, over exact integers. -/
def submitJobCost (ram cpu gpus duration : Nat) : Nat :=
  (ram * 10 + cpu * 5 + gpus * 50) * submitJobHours duration

/-- Cost computed by `submitJobWithInputs` (compute-chain.js lines 265-266);
textually the same formula as in `submitJob`. -/
def submitJobWithInputsCost (ram cpu gpus duration : Nat) : Nat :=
  (ram * 10 + cpu * 5 + gpus * 50) * ((duration + 59) / 60)

theorem submitJobHours_eq_ceilDiv (duration : Nat) :
    submitJobHours duration = duration ⌈/⌉ 60 := by
  rw [Nat.ceilDiv_eq_add_pred_div, submitJobHours]
  congr 1

/-- C1 (counterexample): the scenario claimed in the specification — a
submission with ram=16, cpu=4, gpus=1, duration=120 yields escrow 500 — is
false on the code: the formula gives (16·10 + 4·5 + 1·50) · 2 = 230 · 2 = 460
tokens, not 500. -/
theorem C1_scenario_gives_460_not_500 :
    submitJobCost 16 4 1 120 = 460 ∧ (460 : Nat) ≠ 500 := by
  decide

/-- C1 (amended): for every job submission, the escrowed cost equals
`(ram*ramPrice + cpu*cpuPrice + gpus*gpuPrice) * ceil(duration/60)` with the
default prices 10 / 5 / 50; `submitJobWithInputs` computes the identical value;
the scenario ram=16, cpu=4, gpus=1, duration=120 costs 460 (the specification's
worked example says 500, but 230 · 2 = 460); and the computation is a pure
function, so repeated calls with identical inputs yield the identical value. -/
theorem C1_escrow_cost_formula :
    (∀ ram cpu gpus duration : Nat,
        submitJobCost ram cpu gpus duration
          = (ram * 10 + cpu * 5 + gpus * 50) * (duration ⌈/⌉ 60)
        ∧ submitJobWithInputsCost ram cpu gpus duration
          = submitJobCost ram cpu gpus duration)
    ∧ submitJobCost 16 4 1 120 = 460 := by
  refine ⟨fun ram cpu gpus duration => ⟨?_, rfl⟩, by decide⟩
  rw [submitJobCost, submitJobHours_eq_ceilDiv]

/-! ## JavaScript number semantics of the cost computation (claim C4)

The SDK computes the cost with ordinary JavaScript numbers, i.e. IEEE-754
binary64 floating point, not with a wide integer type.  For nonnegative
integer values a binary64 operation returns the exact integer result rounded
to 53 significant bits (round-to-nearest, ties to even).  `flNat` is that
rounding on naturals; `jsAdd`/`jsMul` are the JavaScript `+`/`*` on
integer-valued doubles. -/

/-- Number of binary digits of `n` (0 for 0), written with an explicit fuel
argument so that it is structurally recursive and reduces in the kernel; the
fuel `n` in `bitLen` is always sufficient since `n ≥ log2 n + 1` for `n ≥ 1`. -/
def bitLenAux : Nat → Nat → Nat
  | 0, _ => 0
  | fuel + 1, n => if n = 0 then 0 else bitLenAux fuel (n / 2) + 1

/-- Bit length of a natural number: `bitLen n = ⌊log2 n⌋ + 1` for `n ≥ 1`. -/
def bitLen (n : Nat) : Nat := bitLenAux n n

/-- Round a natural number to the nearest IEEE-754 binary64 value (53-bit
significand, round to nearest, ties to even).  Every natural number `≤ 2^53` is
exactly representable; beyond that the value is rounded to a multiple of the
unit in the last place `2^(bitLen n - 53)`. -/
def flNat (n : Nat) : Nat :=
  if n < 2 ^ 53 then n
  else
    let ulp := 2 ^ (bitLen n - 53)
    let q := n / ulp
    let r := n % ulp
    if 2 * r < ulp then q * ulp
    else if ulp < 2 * r then (q + 1) * ulp
    else if q % 2 = 0 then q * ulp else (q + 1) * ulp

/-- JavaScript `+` on integer-valued doubles: exact sum, rounded to binary64. -/
def jsAdd (a b : Nat) : Nat := flNat (a + b)

/-- JavaScript `*` on integer-valued doubles: exact product, rounded to
binary64. -/
def jsMul (a b : Nat) : Nat := flNat (a * b)

/-- The cost computation of `submitJob` (compute-chain.js lines 71-72) as
JavaScript evaluates it: `(ram * 10 + cpu * 5 + gpus * 50) * hours`, each
operation rounded to binary64.  `Math.ceil(duration / 60)` is embedded as exact
ceiling division: for `duration ≤ 2^53` the correctly rounded quotient
`duration / 60` is never within half an ulp of a different integer, so the
ceiling is exact. -/
def jsSubmitJobCost (ram cpu gpus duration : Nat) : Nat :=
  jsMul (jsAdd (jsAdd (jsMul ram 10) (jsMul cpu 5)) (jsMul gpus 50))
    (submitJobHours duration)

theorem flNat_eq_self_of_le {n : Nat} (h : n ≤ 2 ^ 53) : flNat n = n := by
  rcases Nat.lt_or_ge n (2 ^ 53) with hlt | hge
  · simp only [flNat]
    rw [if_pos hlt]
  · have heq : n = 2 ^ 53 := le_antisymm h hge
    subst heq
    decide

/-- C4 (counterexample): with ram = 2251799813685249 (= 2^51 + 1), cpu = 0,
gpus = 0, duration = 60, JavaScript computes `ram * 10` as 22517998136852488 —
the exact product 22517998136852490 is not representable in binary64 — so the
computed cost differs from the exact integer value of the pricing formula. -/
theorem C4_precision_loss_counterexample :
    jsSubmitJobCost 2251799813685249 0 0 60 = 22517998136852488
    ∧ submitJobCost 2251799813685249 0 0 60 = 22517998136852490
    ∧ jsSubmitJobCost 2251799813685249 0 0 60
        ≠ submitJobCost 2251799813685249 0 0 60 := by
  refine ⟨?_, by decide, ?_⟩ <;> decide

/-- C4 (amended): the SDK cost computation at job submission uses ordinary
JavaScript double-precision floating-point arithmetic, not saturating or
overflow-checked wide-integer arithmetic; the computed cost equals the exact
integer value of the pricing formula whenever every intermediate product, sum
and the final cost are at most `2^53`, and can silently lose precision beyond
that. -/
theorem C4_cost_exact_iff_below_double_precision
    (ram cpu gpus duration : Nat)
    (h1 : ram * 10 ≤ 2 ^ 53) (h2 : cpu * 5 ≤ 2 ^ 53) (h3 : gpus * 50 ≤ 2 ^ 53)
    (h4 : ram * 10 + cpu * 5 ≤ 2 ^ 53)
    (h5 : ram * 10 + cpu * 5 + gpus * 50 ≤ 2 ^ 53)
    (h6 : (ram * 10 + cpu * 5 + gpus * 50) * submitJobHours duration ≤ 2 ^ 53) :
    jsSubmitJobCost ram cpu gpus duration = submitJobCost ram cpu gpus duration := by
  rw [jsSubmitJobCost, jsMul, jsMul, jsMul, jsMul, jsAdd, jsAdd,
    flNat_eq_self_of_le h1, flNat_eq_self_of_le h2, flNat_eq_self_of_le h3,
    flNat_eq_self_of_le h4, flNat_eq_self_of_le h5, flNat_eq_self_of_le h6,
    submitJobCost]

/-- C4 witness: the amended theorem applied at ram=16, cpu=4, gpus=1,
duration=120, whose intermediates are all far below `2^53`. -/
theorem C4_cost_exact_witness :
    (16 * 10 ≤ 2 ^ 53 ∧ 4 * 5 ≤ 2 ^ 53 ∧ 1 * 50 ≤ 2 ^ 53
      ∧ 16 * 10 + 4 * 5 ≤ 2 ^ 53 ∧ 16 * 10 + 4 * 5 + 1 * 50 ≤ 2 ^ 53
      ∧ (16 * 10 + 4 * 5 + 1 * 50) * submitJobHours 120 ≤ 2 ^ 53)
    ∧ jsSubmitJobCost 16 4 1 120 = submitJobCost 16 4 1 120 :=
  ⟨⟨by decide, by decide, by decide, by decide, by decide, by decide⟩,
    C4_cost_exact_iff_below_double_precision 16 4 1 120 (by decide) (by decide)
      (by decide) (by decide) (by decide) (by decide)⟩

/-! ## Validation in `submitJobWithInputs` (compute-chain.js lines 240-301)

The source performs, in order:
  `if (!image) throw new Error('Image required');`
  `if (!inputs || inputs.length === 0) throw new Error('Inputs required ...');`
  `if (inputs.length > 10) throw new Error('Maximum 10 input files');`
  `if (secrets.length > 10) throw new Error('Maximum 10 secrets');`
and later, while formatting each secret (`key = sec.key || sec.name`,
`vaultPath = sec.path || sec.vaultPath`):
  `if (!key || !vaultPath) throw new Error('Secret must have both key and path');`
-/

/-- An entry of the input manifest passed to `submitJobWithInputs`:
`{cid, path, size, checksum}`. -/
structure InputFile where
  cid : String
  path : String
  size : Nat
  checksum : String
deriving DecidableEq

/-- A secret reference passed to `submitJobWithInputs`; the source accepts
`key`/`name` and `path`/`vaultPath` spellings, each possibly absent. -/
structure SecretRef where
  key : Option String
  name : Option String
  path : Option String
  vaultPath : Option String
deriving DecidableEq

/-- The errors thrown by `submitJobWithInputs` before reaching the chain. -/
inductive SubmitError where
  | imageRequired
  | inputsRequired
  | tooManyInputs
  | tooManySecrets
  | secretMissingKeyOrPath
deriving DecidableEq

/-- JavaScript truthiness of an optional string: `undefined` and `""` are
falsy. -/
def strTruthy : Option String → Bool
  | none => false
  | some s => s ≠ ""

/-- JavaScript `a || b` on optional strings. -/
def strOr (a b : Option String) : Option String :=
  if strTruthy a then a else b

/-- The per-secret check in `submitJobWithInputs` (compute-chain.js lines
282-297): each secret must have both a key (`key` or `name`) and a path
(`path` or `vaultPath`). -/
def checkSecrets : List SecretRef → Except SubmitError Unit
  | [] => .ok ()
  | sec :: rest =>
    if strTruthy (strOr sec.key sec.name) && strTruthy (strOr sec.path sec.vaultPath) then
      checkSecrets rest
    else
      .error .secretMissingKeyOrPath

/-- The validation performed by `submitJobWithInputs` (compute-chain.js lines
257-260 and 282-297) before submitting the transaction, in source order. -/
def validateSubmitJobWithInputs (image : Option String) (inputs : List InputFile)
    (secrets : List SecretRef) : Except SubmitError Unit :=
  if ¬ strTruthy image then .error .imageRequired
  else if inputs.length = 0 then .error .inputsRequired
  else if inputs.length > 10 then .error .tooManyInputs
  else if secrets.length > 10 then .error .tooManySecrets
  else checkSecrets secrets

/-- C3: submission fails (throws) whenever the input manifest has more than 10
entries or the secret references have more than 10 entries, and with at most 10
of each the two count checks pass — the result is never `tooManyInputs` or
`tooManySecrets`. -/
theorem C3_manifest_and_secret_limits (image : Option String)
    (inputs : List InputFile) (secrets : List SecretRef) :
    (inputs.length > 10 ∨ secrets.length > 10 →
      ∃ e, validateSubmitJobWithInputs image inputs secrets = .error e)
    ∧ (inputs.length ≤ 10 → secrets.length ≤ 10 →
      validateSubmitJobWithInputs image inputs secrets ≠ .error .tooManyInputs
      ∧ validateSubmitJobWithInputs image inputs secrets ≠ .error .tooManySecrets) := by
  constructor
  · intro hcount
    rw [validateSubmitJobWithInputs]
    split
    · exact ⟨_, rfl⟩
    · split
      · exact ⟨_, rfl⟩
      · split
        · exact ⟨_, rfl⟩
        · split
          · exact ⟨_, rfl⟩
          · omega
  · intro hin hsec
    rw [validateSubmitJobWithInputs]
    have hsecrets : ∀ l : List SecretRef, checkSecrets l ≠ .error .tooManyInputs
        ∧ checkSecrets l ≠ .error .tooManySecrets := by
      intro l
      induction l with
      | nil => exact ⟨by simp [checkSecrets], by simp [checkSecrets]⟩
      | cons s rest ih =>
        rw [checkSecrets]
        split
        · exact ih
        · exact ⟨by simp, by simp⟩
    split
    · exact ⟨by simp, by simp⟩
    · split
      · exact ⟨by simp, by simp⟩
      · split
        · omega
        · split
          · omega
          · exact hsecrets secrets

/-- The single-entry input manifest used in the concrete witness. -/
def demoInputs : List InputFile :=
  [{ cid := "Qm1", path := "/data/input.txt", size := 9, checksum := "ab" }]

/-- The single well-formed secret reference used in the concrete witness. -/
def demoSecrets : List SecretRef :=
  [{ key := some "API_KEY", name := none, path := some "openai/key",
     vaultPath := none }]

/-- C3 witness: on a concrete in-bounds submission (1 input, 1 well-formed
secret) both count checks pass. -/
theorem C3_manifest_and_secret_limits_witness :
    demoInputs.length ≤ 10 ∧ demoSecrets.length ≤ 10
    ∧ (validateSubmitJobWithInputs (some "ubuntu:22.04") demoInputs demoSecrets
        ≠ .error .tooManyInputs
      ∧ validateSubmitJobWithInputs (some "ubuntu:22.04") demoInputs demoSecrets
        ≠ .error .tooManySecrets) :=
  ⟨by decide, by decide,
    (C3_manifest_and_secret_limits (some "ubuntu:22.04") demoInputs demoSecrets).2
      (by decide) (by decide)⟩

/-! ## Config tooling: regex patching of the pallet source (apply-config tool)

`applyPricing` (example.js companion tool, lines 115-142) reads
`pallets/ipfs-host/src/lib.rs`, replaces the pricing constants by regex
substitution, and writes the file back:

  `code = code.replace(/let ram_cost = \(memory_gb as u128\) \* \d+ \* hours;/,`
  `  let ram_cost = (memory_gb as u128) * NEW * hours;)`

and likewise for `cpu_cost` and `gpu_cost`.  We embed the text-to-text
transformation the tool applies.  Text is represented as `List Char`.  Each
regex has the shape `pre ++ digit-run ++ post` over literal text; since the
character after `\d+` in each pattern is a space, the greedy digit run of a
match is exactly the maximal digit run, so a first-match scanner is a faithful
model of the JavaScript non-global `String.replace`. -/

/-- Does `pat` occur as a prefix of `s`? -/
def listStarts : List Char → List Char → Bool
  | [], _ => true
  | _ :: _, [] => false
  | p :: ps, c :: cs => p == c && listStarts ps cs

/-- Find the first occurrence of `pre ++ <digits> ++ post` (nonempty digit run)
in the text; return the text before the match, the digit run, and the text
after the match. -/
def findConstPattern (pre post : List Char) :
    List Char → Option (List Char × List Char × List Char)
  | [] => none
  | c :: cs =>
    let here : Option (List Char × List Char × List Char) :=
      if listStarts pre (c :: cs) then
        let rest := (c :: cs).drop pre.length
        let digits := rest.takeWhile Char.isDigit
        if digits.isEmpty then none
        else if listStarts post (rest.drop digits.length) then
          some ([], digits, (rest.drop digits.length).drop post.length)
        else none
      else none
    match here with
    | some r => some r
    | none =>
      match findConstPattern pre post cs with
      | some (before, d, after) => some (c :: before, d, after)
      | none => none

/-- JavaScript `code.replace(regex, replacement)` for a non-global regex of the
shape `pre\d+post` and replacement `pre ++ newNum ++ post`: rewrite the first
occurrence, return the text unchanged when there is none. -/
def replaceConst (pre post newNum code : List Char) : List Char :=
  match findConstPattern pre post code with
  | some (before, _, after) => before ++ pre ++ newNum ++ post ++ after
  | none => code

/-- Decimal digits of a natural number (JavaScript template interpolation of a
number), fuel-based so that it reduces in the kernel. -/
def natDigitsAux : Nat → Nat → List Char
  | 0, _ => []
  | fuel + 1, n =>
    if n < 10 then [Char.ofNat (48 + n)]
    else natDigitsAux fuel (n / 10) ++ [Char.ofNat (48 + n % 10)]

/-- Decimal representation of a natural number as text. -/
def natDigits (n : Nat) : List Char := natDigitsAux (n + 1) n

/-- The literal text before the RAM pricing constant in the pallet source
(the regex in `applyPricing`, minus the digit run and trailing context). -/
def ramCostPre : List Char := "let ram_cost = (memory_gb as u128) * ".toList

/-- The literal text before the CPU pricing constant. -/
def cpuCostPre : List Char := "let cpu_cost = (cpu_cores as u128) * ".toList

/-- The literal text before the GPU pricing constant. -/
def gpuCostPre : List Char := "let gpu_cost = (gpu_count as u128) * ".toList

/-- The literal text after each pricing constant. -/
def costPost : List Char := " * hours;".toList

/-- The function `applyPricing(config)` from the apply-config tool (example.js companion,
lines 115-142) as the transformation it applies to the pallet source text:
three successive regex replacements of the RAM, CPU and GPU pricing
constants with the configured prices. -/
def applyPricing (ramPrice cpuPrice gpuPrice : Nat) (code : List Char) : List Char :=
  replaceConst gpuCostPre costPost (natDigits gpuPrice)
    (replaceConst cpuCostPre costPost (natDigits cpuPrice)
      (replaceConst ramCostPre costPost (natDigits ramPrice) code))

/-- The pricing section of the pallet source as documented in the repository
README (pallets/ipfs-host/src/lib.rs line 738, default prices 10 / 5 / 50). -/
def palletPricingSnippet : List Char :=
  ("let ram_cost = (memory_gb as u128) * 10 * hours;\n"
    ++ "let cpu_cost = (cpu_cores as u128) * 5 * hours;\n"
    ++ "let gpu_cost = (gpu_count as u128) * 50 * hours;\n").toList

/-- The same snippet after `applyPricing` with the high-security template's
prices ram=20, cpu=15, gpu=100. -/
def palletPricingSnippetPatched : List Char :=
  ("let ram_cost = (memory_gb as u128) * 20 * hours;\n"
    ++ "let cpu_cost = (cpu_cores as u128) * 15 * hours;\n"
    ++ "let gpu_cost = (gpu_count as u128) * 100 * hours;\n").toList

/-- C5 (counterexample): the claim that no operation of the system rewrites
source code text to change pricing constants is false — `applyPricing` with
prices 20 / 15 / 100 rewrites the pallet pricing source text in place. -/
theorem C5_applyPricing_rewrites_source_text :
    applyPricing 20 15 100 palletPricingSnippet = palletPricingSnippetPatched
    ∧ palletPricingSnippetPatched ≠ palletPricingSnippet := by
  constructor
  · decide
  · decide

/-- C5 (amended): changing pricing through the apply-config tooling is effected
by regex substitution on the pallet source file, not through a runtime-mutable
config record: for every configured RAM price `p`, the tool rewrites the
`ram_cost` line of the pallet source text, substituting `p` for the deployed
constant. -/
theorem C5_applyPricing_patches_ram_constant (p : Nat) :
    replaceConst ramCostPre costPost (natDigits p) palletPricingSnippet
      = ramCostPre ++ natDigits p ++ costPost
        ++ ("\nlet cpu_cost = (cpu_cores as u128) * 5 * hours;\n"
          ++ "let gpu_cost = (gpu_count as u128) * 50 * hours;\n").toList := by
  have hfind : findConstPattern ramCostPre costPost palletPricingSnippet
      = some ([], "10".toList,
          ("\nlet cpu_cost = (cpu_cores as u128) * 5 * hours;\n"
            ++ "let gpu_cost = (gpu_count as u128) * 50 * hours;\n").toList) := by
    decide
  rw [replaceConst, hfind]
  simp

/-! ## Chain generator templates (create-chain tool) and generated config

The chain generator ships four templates (`TEMPLATES` in the create-chain
script: default, ai-training, render-farm, batch-jobs); the shell variant of
the generator writes a `chain.config.js` with pricing, verification, limits,
network and provider sections.  The templates carry a `slashPercentage` but no
`rewardPercentage` field; the generated `chain.config.js` carries both. -/

/-- A template configuration from the create-chain generator (`TEMPLATES`). -/
structure TemplateConfig where
  ramCostPerGbHour : Nat
  cpuCostPerCoreHour : Nat
  gpuCostPerGpuHour : Nat
  maxMemoryGb : Nat
  maxCpuCores : Nat
  maxGpuCount : Nat
  maxDurationMinutes : Nat
  maxDiskGb : Nat
  challengePeriodBlocks : Nat
  slashPercentage : Nat
  minProviderStake : Nat
deriving DecidableEq

/-- The `default` template: balanced pricing for general compute workloads. -/
def defaultTemplate : TemplateConfig :=
  { ramCostPerGbHour := 10, cpuCostPerCoreHour := 5, gpuCostPerGpuHour := 50,
    maxMemoryGb := 64, maxCpuCores := 16, maxGpuCount := 8,
    maxDurationMinutes := 1440, maxDiskGb := 100,
    challengePeriodBlocks := 100, slashPercentage := 50, minProviderStake := 1000 }

/-- The `ai-training` template: long-running GPU workloads. -/
def aiTrainingTemplate : TemplateConfig :=
  { ramCostPerGbHour := 5, cpuCostPerCoreHour := 3, gpuCostPerGpuHour := 30,
    maxMemoryGb := 256, maxCpuCores := 32, maxGpuCount := 8,
    maxDurationMinutes := 10080, maxDiskGb := 500,
    challengePeriodBlocks := 200, slashPercentage := 30, minProviderStake := 5000 }

/-- The `render-farm` template: GPU rendering tasks. -/
def renderFarmTemplate : TemplateConfig :=
  { ramCostPerGbHour := 8, cpuCostPerCoreHour := 10, gpuCostPerGpuHour := 80,
    maxMemoryGb := 128, maxCpuCores := 32, maxGpuCount := 4,
    maxDurationMinutes := 480, maxDiskGb := 200,
    challengePeriodBlocks := 50, slashPercentage := 70, minProviderStake := 3000 }

/-- The `batch-jobs` template: high-volume CPU tasks with strict limits. -/
def batchJobsTemplate : TemplateConfig :=
  { ramCostPerGbHour := 15, cpuCostPerCoreHour := 8, gpuCostPerGpuHour := 100,
    maxMemoryGb := 32, maxCpuCores := 64, maxGpuCount := 2,
    maxDurationMinutes := 120, maxDiskGb := 50,
    challengePeriodBlocks := 30, slashPercentage := 60, minProviderStake := 500 }

/-- The `chain.config.js` written by the shell chain generator.  Its
`pricing.disk_gb` is 1 token/GB/hour (documented as not yet implemented). -/
structure GeneratedChainConfig where
  ramGbPrice : Nat
  cpuCorePrice : Nat
  gpuPrice : Nat
  diskGbPrice : Nat
  challengePeriodBlocks : Nat
  minValidators : Nat
  slashPercentage : Nat
  rewardPercentage : Nat
  maxRamGb : Nat
  maxCpuCores : Nat
  maxGpus : Nat
  maxDurationMinutes : Nat
  maxDiskGb : Nat
  blockTimeMs : Nat
  minStake : Nat
deriving DecidableEq

/-- The concrete `chain.config.js` contents generated by the shell tool. -/
def generatedChainConfig : GeneratedChainConfig :=
  { ramGbPrice := 10, cpuCorePrice := 5, gpuPrice := 50, diskGbPrice := 1,
    challengePeriodBlocks := 100, minValidators := 1,
    slashPercentage := 10, rewardPercentage := 5,
    maxRamGb := 128, maxCpuCores := 64, maxGpus := 8,
    maxDurationMinutes := 1440, maxDiskGb := 1000,
    blockTimeMs := 6000, minStake := 1000 }

/-- The ChainConfig invariant restricted to the fields a template carries:
its percentage field lies in [0, 100] (the lower bound holds for every `Nat`)
and every resource ceiling is strictly positive. -/
def templateInvariant (c : TemplateConfig) : Prop :=
  c.slashPercentage ≤ 100
  ∧ 0 < c.maxMemoryGb ∧ 0 < c.maxCpuCores ∧ 0 < c.maxGpuCount
  ∧ 0 < c.maxDurationMinutes ∧ 0 < c.maxDiskGb

/-- The ChainConfig invariant on the generated `chain.config.js`: both
percentage fields lie in [0, 100] and every resource ceiling is strictly
positive. -/
def generatedConfigInvariant (c : GeneratedChainConfig) : Prop :=
  c.slashPercentage ≤ 100 ∧ c.rewardPercentage ≤ 100
  ∧ 0 < c.maxRamGb ∧ 0 < c.maxCpuCores ∧ 0 < c.maxGpus
  ∧ 0 < c.maxDurationMinutes ∧ 0 < c.maxDiskGb

/-- C8: every configuration shipped with the chain generator — the default,
ai-training, render-farm and batch-jobs templates and the generated
`chain.config.js` — satisfies the ChainConfig invariant: every percentage
field lies in [0, 100] and every resource ceiling is strictly greater
than 0. -/
theorem C8_shipped_configs_satisfy_invariant :
    templateInvariant defaultTemplate
    ∧ templateInvariant aiTrainingTemplate
    ∧ templateInvariant renderFarmTemplate
    ∧ templateInvariant batchJobsTemplate
    ∧ generatedConfigInvariant generatedChainConfig := by
  refine ⟨?_, ?_, ?_, ?_, ?_⟩ <;>
    norm_num [templateInvariant, generatedConfigInvariant, defaultTemplate,
      aiTrainingTemplate, renderFarmTemplate, batchJobsTemplate,
      generatedChainConfig]

/-! ## Chain storage as the SDK observes it, and the SDK read queries

The SDK reads the pallet's storage maps (`jobs`, `providers`, `challenges`,
`challengePeriodDeadlines`) and the current block number over RPC.  We model
the observed storage as association lists, so that every query is executable,
and embed each query function of compute-chain.js. -/

/-- A job record as stored on chain and decoded by the SDK. -/
structure Job where
  status : String
  submitter : String
  provider : Option String
  imageCid : String
  command : String
  escrowedPayment : Nat
  actualPayment : Option Nat
  measuredTflops : Nat
deriving DecidableEq

/-- A provider record as stored on chain and decoded by the SDK. -/
structure Provider where
  peerId : String
  reputationScore : Nat
  completedJobs : Nat
  fraudCount : Nat
  challengeCount : Nat
  activeJobs : Nat
  slashedAmount : Nat
  stake : Nat
deriving DecidableEq

/-- A challenge record as stored on chain and decoded by the SDK. -/
structure Challenge where
  jobId : Nat
  challenger : String
  provider : String
  checkpointIndex : Nat
  status : String
  createdAt : Nat
  resolvedAt : Option Nat
  outcome : Option String
deriving DecidableEq

/-- The chain storage visible to the SDK queries, with the current block
height. -/
structure ChainState where
  jobs : List (Nat × Job)
  providers : List (String × Provider)
  challenges : List (Nat × Challenge)
  challengePeriodDeadlines : List (Nat × Nat)
  currentBlock : Nat

/-- The object returned by `getJob` (compute-chain.js lines 145-163). -/
structure JobView where
  id : Nat
  status : String
  submitter : String
  provider : Option String
  image : String
  command : String
  escrowed : Nat
  paid : Option Nat
  tflops : ℚ
deriving DecidableEq

/-- The query `getJob(jobId)` (compute-chain.js lines 145-163): `null` when the storage
entry is `None`, otherwise the decoded job; `tflops` is
`data.measuredTflops / 100`. -/
def getJob (s : ChainState) (jobId : Nat) : Option JobView :=
  match s.jobs.lookup jobId with
  | none => none
  | some j =>
    some { id := jobId, status := j.status, submitter := j.submitter,
           provider := j.provider, image := j.imageCid, command := j.command,
           escrowed := j.escrowedPayment, paid := j.actualPayment,
           tflops := (j.measuredTflops : ℚ) / 100 }

/-- The object returned by `getChallenge` (compute-chain.js lines 567-589). -/
structure ChallengeView where
  challengeId : Nat
  jobId : Nat
  challenger : String
  provider : String
  checkpointIndex : Nat
  status : String
  createdAt : Nat
  resolvedAt : Option Nat
  outcome : Option String
deriving DecidableEq

/-- The query `getChallenge(challengeId)` (compute-chain.js lines 567-589): `null` when
the storage entry is `None`, otherwise the decoded challenge. -/
def getChallenge (s : ChainState) (challengeId : Nat) : Option ChallengeView :=
  match s.challenges.lookup challengeId with
  | none => none
  | some c =>
    some { challengeId := challengeId, jobId := c.jobId,
           challenger := c.challenger, provider := c.provider,
           checkpointIndex := c.checkpointIndex, status := c.status,
           createdAt := c.createdAt, resolvedAt := c.resolvedAt,
           outcome := c.outcome }

/-- The object returned by `getProviderReputation` (compute-chain.js lines
499-520). -/
structure ReputationView where
  address : String
  reputationScore : Nat
  slashedAmount : Nat
  challengeCount : Nat
  fraudCount : Nat
  completedJobs : Nat
  activeJobs : Nat
  stake : Nat
deriving DecidableEq

/-- The query `getProviderReputation(providerAddress)` (compute-chain.js lines 499-520):
unlike `getJob` and `getChallenge`, an unknown address throws
`Provider not found: ...` rather than returning `null`. -/
def getProviderReputation (s : ChainState) (addr : String) :
    Except String ReputationView :=
  match s.providers.lookup addr with
  | none => .error ("Provider not found: " ++ addr)
  | some p =>
    .ok { address := addr, reputationScore := p.reputationScore,
          slashedAmount := p.slashedAmount, challengeCount := p.challengeCount,
          fraudCount := p.fraudCount, completedJobs := p.completedJobs,
          activeJobs := p.activeJobs, stake := p.stake }

/-- C10: unknown-id read queries are inconsistent in failure shape — `getJob`
and `getChallenge` return `null` (`none`) for an unknown id, while
`getProviderReputation` throws an error instead of returning `null`. -/
theorem C10_unknown_id_failure_shapes (s : ChainState) (jobId challengeId : Nat)
    (addr : String) :
    (s.jobs.lookup jobId = none → getJob s jobId = none)
    ∧ (s.challenges.lookup challengeId = none → getChallenge s challengeId = none)
    ∧ (s.providers.lookup addr = none →
        getProviderReputation s addr = .error ("Provider not found: " ++ addr)) := by
  refine ⟨fun h => ?_, fun h => ?_, fun h => ?_⟩
  · rw [getJob, h]
  · rw [getChallenge, h]
  · rw [getProviderReputation, h]

/-- The chain state with empty storage used in concrete witnesses. -/
def emptyState : ChainState :=
  { jobs := [], providers := [], challenges := [],
    challengePeriodDeadlines := [], currentBlock := 0 }

/-- C10 witness: on the empty chain state, job id 7, challenge id 3 and
address `5X` are all unknown, `getJob`/`getChallenge` return `none` and
`getProviderReputation` returns the error. -/
theorem C10_unknown_id_failure_shapes_witness :
    (emptyState.jobs.lookup 7 = none ∧ emptyState.challenges.lookup 3 = none
      ∧ emptyState.providers.lookup "5X" = none)
    ∧ getJob emptyState 7 = none
    ∧ getChallenge emptyState 3 = none
    ∧ getProviderReputation emptyState "5X" = .error ("Provider not found: " ++ "5X") :=
  ⟨⟨rfl, rfl, rfl⟩,
    (C10_unknown_id_failure_shapes emptyState 7 3 "5X").1 rfl,
    (C10_unknown_id_failure_shapes emptyState 7 3 "5X").2.1 rfl,
    (C10_unknown_id_failure_shapes emptyState 7 3 "5X").2.2 rfl⟩

/-! ## Challenge-period status query and the challenge-creation guard -/

/-- The object returned by `getChallengePeriodStatus` (compute-chain.js lines
596-626); the fields that the no-deadline branch of the source omits are
optional. -/
structure ChallengePeriodStatus where
  inChallengePeriod : Bool
  canChallenge : Bool
  status : String
  currentBlock : Option Nat
  deadlineBlock : Option Nat
  blocksRemaining : Option Nat
deriving DecidableEq

/-- The query `getChallengePeriodStatus(jobId)` (compute-chain.js lines 596-626): throws
when the job does not exist; reports `canChallenge = false` when no deadline
is stored; otherwise reports `canChallenge = (currentBlock < deadline)` —
note the source never consults `job.status` for `canChallenge`.
`blocksRemaining` is `Math.max(0, deadline - current)`, i.e. truncated
subtraction. -/
def getChallengePeriodStatus (s : ChainState) (jobId : Nat) :
    Except String ChallengePeriodStatus :=
  match getJob s jobId with
  | none => .error ("Job not found: " ++ toString jobId)
  | some job =>
    match s.challengePeriodDeadlines.lookup jobId with
    | none =>
      .ok { inChallengePeriod := false, canChallenge := false,
            status := job.status, currentBlock := none, deadlineBlock := none,
            blocksRemaining := none }
    | some deadlineBlock =>
      .ok { inChallengePeriod := decide (s.currentBlock < deadlineBlock),
            canChallenge := decide (s.currentBlock < deadlineBlock),
            status := job.status, currentBlock := some s.currentBlock,
            deadlineBlock := some deadlineBlock,
            blocksRemaining := some (deadlineBlock - s.currentBlock) }

/-- Modelled from the spec: the guard of the pallet extrinsic
`challengeExecution` (pallets/ipfs-host/src/lib.rs, which is not among the SDK
sources; only its SDK caller `challengeJob` is).  Per spec §4.2, creating a
challenge "requires job in `PendingVerification` or `Disputed`, current block
< deadline, no existing `Open` challenge for that checkpoint". -/
def canCreateChallenge (s : ChainState) (jobId checkpointIndex : Nat) : Bool :=
  match s.jobs.lookup jobId, s.challengePeriodDeadlines.lookup jobId with
  | some job, some deadline =>
    (job.status == "PendingVerification" || job.status == "Disputed")
      && decide (s.currentBlock < deadline)
      && !(s.challenges.any fun c =>
            c.2.jobId == jobId && c.2.checkpointIndex == checkpointIndex
              && c.2.status == "Open")
  | _, _ => false

/-- The `Failed` job used in the C2 counterexample state. -/
def failedJob : Job :=
  { status := "Failed", submitter := "5Alice", provider := some "5Bob",
    imageCid := "ubuntu:22.04", command := "ls", escrowedPayment := 460,
    actualPayment := none, measuredTflops := 0 }

/-- A chain state holding a job that already resolved to `Failed` while its
stored challenge-period deadline (block 100) has not yet expired (current
block 50). -/
def failedJobState : ChainState :=
  { jobs := [(0, failedJob)], providers := [], challenges := [],
    challengePeriodDeadlines := [(0, 100)], currentBlock := 50 }

/-- C2 (counterexample): the status query does not report
`canChallenge = true` "exactly when" the job is in `PendingVerification` or
`Disputed` and the current block is below the deadline — on a `Failed` job
whose stored deadline has not expired it still reports `canChallenge = true`,
because the source never consults the job status. -/
theorem C2_canChallenge_ignores_job_status :
    (getChallengePeriodStatus failedJobState 0).toOption.map
        ChallengePeriodStatus.canChallenge = some true
    ∧ (getJob failedJobState 0).map JobView.status = some "Failed"
    ∧ ("Failed" ≠ "PendingVerification" ∧ "Failed" ≠ "Disputed") := by
  refine ⟨by decide, by decide, by decide, by decide⟩

/-- C2 (amended): a challenge can be created (pallet guard, modelled from the
spec) only when the job is in `PendingVerification` or `Disputed`, the current
block is strictly below the stored deadline, and no `Open` challenge exists
for that checkpoint; the SDK challenge-period status query reports
`canChallenge = true` exactly when a deadline is stored and the current block
is below it — it does not consult the job's status — and reports
`canChallenge = false` whenever no deadline is stored. -/
theorem C2_challenge_period_status (s : ChainState) (jobId : Nat)
    (st : ChallengePeriodStatus)
    (hst : getChallengePeriodStatus s jobId = .ok st) :
    (st.canChallenge = true ↔
      ∃ d, s.challengePeriodDeadlines.lookup jobId = some d ∧ s.currentBlock < d)
    ∧ (s.challengePeriodDeadlines.lookup jobId = none → st.canChallenge = false)
    ∧ (∀ checkpointIndex, canCreateChallenge s jobId checkpointIndex = true →
        ∃ job d, s.jobs.lookup jobId = some job
          ∧ (job.status = "PendingVerification" ∨ job.status = "Disputed")
          ∧ s.challengePeriodDeadlines.lookup jobId = some d
          ∧ s.currentBlock < d
          ∧ ∀ c ∈ s.challenges,
              ¬(c.2.jobId = jobId ∧ c.2.checkpointIndex = checkpointIndex
                ∧ c.2.status = "Open")) := by
  refine ⟨?_, ?_, ?_⟩
  · rw [getChallengePeriodStatus] at hst
    rcases hj : getJob s jobId with _ | job
    · rw [hj] at hst
      exact absurd hst (by simp)
    · rw [hj] at hst
      rcases hd : s.challengePeriodDeadlines.lookup jobId with _ | d
      · rw [hd] at hst
        simp only [Except.ok.injEq] at hst
        subst hst
        simp
      · rw [hd] at hst
        simp only [Except.ok.injEq] at hst
        subst hst
        simp
  · intro hd
    rw [getChallengePeriodStatus] at hst
    rcases hj : getJob s jobId with _ | job
    · rw [hj] at hst
      exact absurd hst (by simp)
    · rw [hj, hd] at hst
      simp only [Except.ok.injEq] at hst
      subst hst
      rfl
  · intro checkpointIndex hc
    rw [canCreateChallenge] at hc
    rcases hj : s.jobs.lookup jobId with _ | job
    · rw [hj] at hc
      simp at hc
    · rcases hd : s.challengePeriodDeadlines.lookup jobId with _ | d
      · rw [hj, hd] at hc
        simp at hc
      · rw [hj, hd] at hc
        simp only [Bool.and_eq_true, Bool.or_eq_true, beq_iff_eq,
          decide_eq_true_eq, Bool.not_eq_true', List.any_eq_false] at hc
        refine ⟨job, d, rfl, hc.1.1, rfl, hc.1.2, fun c hmem => ?_⟩
        intro hcps
        have hno := hc.2 c hmem
        simp only [Bool.and_eq_true, beq_iff_eq, not_and] at hno
        exact hno ⟨hcps.1, hcps.2.1⟩ hcps.2.2

/-- The `PendingVerification` job used in the C2 witness state. -/
def pendingJob : Job :=
  { status := "PendingVerification", submitter := "5Alice",
    provider := some "5Bob", imageCid := "ubuntu:22.04", command := "ls",
    escrowedPayment := 460, actualPayment := none, measuredTflops := 0 }

/-- A chain state holding a job in `PendingVerification` inside its challenge
period, used as the concrete witness for the amended C2. -/
def pendingJobState : ChainState :=
  { jobs := [(0, pendingJob)], providers := [], challenges := [],
    challengePeriodDeadlines := [(0, 100)], currentBlock := 50 }

/-- The status object that the query returns on `pendingJobState`. -/
def pendingStatusView : ChallengePeriodStatus :=
  { inChallengePeriod := true, canChallenge := true,
    status := "PendingVerification", currentBlock := some 50,
    deadlineBlock := some 100, blocksRemaining := some 50 }

/-- C2 witness: the amended theorem applied to a concrete
`PendingVerification` job inside its challenge period, whose status query
succeeds; its `canChallenge` is `true` exactly because a deadline (block 100)
is stored and the current block (50) is below it. -/
theorem C2_challenge_period_status_witness :
    getChallengePeriodStatus pendingJobState 0 = .ok pendingStatusView
    ∧ (pendingStatusView.canChallenge = true ↔
      ∃ d, pendingJobState.challengePeriodDeadlines.lookup 0 = some d
        ∧ pendingJobState.currentBlock < d) :=
  ⟨rfl, (C2_challenge_period_status pendingJobState 0 pendingStatusView rfl).1⟩


/-! ## `listProviders` (compute-chain.js lines 632-650)

The source maps every storage entry to a summary object and sorts with
`.sort((a, b) => b.reputationScore - a.reputationScore)`.  JavaScript
`Array.prototype.sort` is stable (required since ES2019) and, for this
consistent comparator, produces the unique stable descending-by-reputation
ordering; we embed it as a stable insertion sort with respect to
`a.reputationScore ≥ b.reputationScore`. -/

/-- The summary object `listProviders` returns per provider. -/
structure ProviderSummary where
  address : String
  reputationScore : Nat
  completedJobs : Nat
  fraudCount : Nat
  slashedAmount : Nat
  stake : Nat
deriving DecidableEq

/-- The comparator of `listProviders`: `a` precedes (or ties) `b` when
`b.reputationScore - a.reputationScore ≤ 0`, i.e. descending reputation. -/
def byReputationDesc (a b : ProviderSummary) : Prop :=
  b.reputationScore ≤ a.reputationScore

instance : DecidableRel byReputationDesc := fun a b =>
  inferInstanceAs (Decidable (b.reputationScore ≤ a.reputationScore))

instance : IsTotal ProviderSummary byReputationDesc :=
  ⟨fun a b => Nat.le_total b.reputationScore a.reputationScore⟩

instance : IsTrans ProviderSummary byReputationDesc :=
  ⟨fun _ _ _ h1 h2 => Nat.le_trans h2 h1⟩

/-- The query `listProviders()` (compute-chain.js lines 632-650): map the provider
storage entries to summaries and sort them by descending reputation score. -/
def listProviders (entries : List (String × Provider)) : List ProviderSummary :=
  (entries.map fun e =>
    { address := e.1, reputationScore := e.2.reputationScore,
      completedJobs := e.2.completedJobs, fraudCount := e.2.fraudCount,
      slashedAmount := e.2.slashedAmount,
      stake := e.2.stake }).insertionSort byReputationDesc

/-- C9: for every set of registered providers, the providers-list query
returns the providers in non-increasing order of reputation score: every
adjacent pair `i`, `i+1` of the returned list satisfies
`reputationScore[i] ≥ reputationScore[i+1]`. -/
theorem C9_listProviders_sorted_by_reputation
    (entries : List (String × Provider)) (i : Nat)
    (h : i + 1 < (listProviders entries).length) :
    ((listProviders entries).get
        ⟨i + 1, h⟩).reputationScore
      ≤ ((listProviders entries).get
        ⟨i, Nat.lt_of_succ_lt h⟩).reputationScore := by
  have hs : List.Sorted byReputationDesc (listProviders entries) :=
    List.sorted_insertionSort byReputationDesc _
  exact hs.rel_get_of_lt (by exact Nat.lt_succ_self i)

/-- A concrete provider record with reputation 40. -/
def demoProviderLow : Provider :=
  { peerId := "p1", reputationScore := 40, completedJobs := 1,
    fraudCount := 1, challengeCount := 2, activeJobs := 0,
    slashedAmount := 500, stake := 500 }

/-- A concrete provider record with reputation 90. -/
def demoProviderHigh : Provider :=
  { peerId := "p2", reputationScore := 90, completedJobs := 9,
    fraudCount := 0, challengeCount := 0, activeJobs := 1,
    slashedAmount := 0, stake := 1000 }

/-- Two concrete provider entries, low reputation first. -/
def demoProviderEntries : List (String × Provider) :=
  [("5Low", demoProviderLow), ("5High", demoProviderHigh)]

/-- C9 witness: on two concrete providers with reputations 40 and 90 the
returned list has length 2 and the adjacent pair is ordered 90 ≥ 40. -/
theorem C9_listProviders_sorted_witness :
    (0 + 1 < (listProviders demoProviderEntries).length)
    ∧ (((listProviders demoProviderEntries).get
        ⟨0 + 1, by decide⟩).reputationScore
      ≤ ((listProviders demoProviderEntries).get
        ⟨0, by decide⟩).reputationScore) :=
  ⟨by decide,
    C9_listProviders_sorted_by_reputation demoProviderEntries 0 (by decide)⟩

/-! ## Challenge resolution with outcome FraudConfirmed (claim C6)

The extrinsic `resolveChallenge` lives in the pallet
(`pallets/ipfs-host/src/lib.rs`), which is not among the SDK sources; the SDK
only documents its effects (test-trust.js lines 103-107).  It is therefore
modelled from the specification (§4.2). -/

/-- The slashing parameters from ChainConfig used at resolution. -/
structure SlashConfig where
  slashPercentage : Nat
  rewardPercentage : Nat
deriving DecidableEq

/-- The balances and records touched by resolving one challenge. -/
structure ResolutionState where
  providerStake : Nat
  providerReputation : Nat
  providerFraudCount : Nat
  challengerBalance : Nat
  treasuryBalance : Nat
  submitterBalance : Nat
  jobEscrow : Nat
  jobStatus : String
deriving DecidableEq

/-- Modelled from the spec: the pallet's `resolveChallenge` with outcome
`FraudConfirmed` (pallets/ipfs-host/src/lib.rs, absent from the SDK sources).
Spec §4.2: the provider's stake is slashed by `slashPercentage`% of their
stake (drawn from stake, not from the job's escrow); `rewardPercentage`% of
the slashed amount goes to the challenger and the remainder to the treasury;
the provider's reputation decreases by a fixed penalty of 20 points with
floor 0 (truncated natural subtraction); the fraud count increments; the job
transitions to `Failed` and the submitter's escrow is refunded in full. -/
def resolveFraudConfirmed (cfg : SlashConfig) (s : ResolutionState) :
    ResolutionState :=
  let slashAmount := s.providerStake * cfg.slashPercentage / 100
  let challengerReward := slashAmount * cfg.rewardPercentage / 100
  { providerStake := s.providerStake - slashAmount
    providerReputation := s.providerReputation - 20
    providerFraudCount := s.providerFraudCount + 1
    challengerBalance := s.challengerBalance + challengerReward
    treasuryBalance := s.treasuryBalance + (slashAmount - challengerReward)
    submitterBalance := s.submitterBalance + s.jobEscrow
    jobEscrow := 0
    jobStatus := "Failed" }

/-- C6: when a challenge resolves `FraudConfirmed`, the provider's stake
decreases by exactly `slashPercentage`% of its pre-slash stake (never
underflowing, since the percentage is at most 100), the challenger receives
`rewardPercentage`% of the slashed amount with the remainder going to the
treasury (the slashed amount is exactly conserved between challenger,
treasury and remaining stake), the provider's reputation drops by 20 with
floor 0, the submitter is refunded the full original escrow, and the job
transitions to `Failed`. -/
theorem C6_fraud_confirmed_resolution (cfg : SlashConfig) (s : ResolutionState)
    (hslash : cfg.slashPercentage ≤ 100)
    (hreward : cfg.rewardPercentage ≤ 100) :
    (resolveFraudConfirmed cfg s).providerStake
        = s.providerStake - s.providerStake * cfg.slashPercentage / 100
    ∧ (resolveFraudConfirmed cfg s).providerStake
        + s.providerStake * cfg.slashPercentage / 100 = s.providerStake
    ∧ (resolveFraudConfirmed cfg s).challengerBalance
        = s.challengerBalance
          + s.providerStake * cfg.slashPercentage / 100 * cfg.rewardPercentage / 100
    ∧ (resolveFraudConfirmed cfg s).providerStake
        + (resolveFraudConfirmed cfg s).challengerBalance
        + (resolveFraudConfirmed cfg s).treasuryBalance
        = s.providerStake + s.challengerBalance + s.treasuryBalance
    ∧ (resolveFraudConfirmed cfg s).providerReputation
        = s.providerReputation - 20
    ∧ (resolveFraudConfirmed cfg s).submitterBalance
        = s.submitterBalance + s.jobEscrow
    ∧ (resolveFraudConfirmed cfg s).jobStatus = "Failed" := by
  have hle : s.providerStake * cfg.slashPercentage / 100 ≤ s.providerStake := by
    have h1 : s.providerStake * cfg.slashPercentage / 100
        ≤ s.providerStake * 100 / 100 := by
      gcongr
    simpa using h1
  have hrle : s.providerStake * cfg.slashPercentage / 100 * cfg.rewardPercentage / 100
      ≤ s.providerStake * cfg.slashPercentage / 100 := by
    have h1 : s.providerStake * cfg.slashPercentage / 100 * cfg.rewardPercentage / 100
        ≤ s.providerStake * cfg.slashPercentage / 100 * 100 / 100 := by
      gcongr
    simpa using h1
  refine ⟨rfl, ?_, rfl, ?_, rfl, rfl, rfl⟩
  · show s.providerStake - s.providerStake * cfg.slashPercentage / 100
        + s.providerStake * cfg.slashPercentage / 100 = s.providerStake
    omega
  · show s.providerStake - s.providerStake * cfg.slashPercentage / 100
        + (s.challengerBalance
          + s.providerStake * cfg.slashPercentage / 100 * cfg.rewardPercentage / 100)
        + (s.treasuryBalance
          + (s.providerStake * cfg.slashPercentage / 100
            - s.providerStake * cfg.slashPercentage / 100 * cfg.rewardPercentage / 100))
        = s.providerStake + s.challengerBalance + s.treasuryBalance
    omega

/-- The slashing configuration of the claim scenario: slash 50%, reward 5%. -/
def demoSlashConfig : SlashConfig :=
  { slashPercentage := 50, rewardPercentage := 5 }

/-- The pre-resolution state of the claim scenario: provider stake 1000,
reputation 100, escrow 460. -/
def demoResolutionState : ResolutionState :=
  { providerStake := 1000, providerReputation := 100, providerFraudCount := 0,
    challengerBalance := 0, treasuryBalance := 0, submitterBalance := 0,
    jobEscrow := 460, jobStatus := "Disputed" }

/-- C6 witness: the theorem applied to the claim's scenario — slash 50% of a
1000-token stake: the stake becomes 500, the challenger receives 5% of the
slashed 500 (25 tokens), the treasury receives 475, the reputation drops from
100 to 80, the submitter is refunded the full escrow and the job is Failed. -/
theorem C6_fraud_confirmed_resolution_witness :
    (demoSlashConfig.slashPercentage ≤ 100 ∧ demoSlashConfig.rewardPercentage ≤ 100)
    ∧ (resolveFraudConfirmed demoSlashConfig demoResolutionState).providerStake
        = demoResolutionState.providerStake
          - demoResolutionState.providerStake * demoSlashConfig.slashPercentage / 100
    ∧ (resolveFraudConfirmed demoSlashConfig demoResolutionState).providerStake = 500
    ∧ (resolveFraudConfirmed demoSlashConfig demoResolutionState).challengerBalance = 25
    ∧ (resolveFraudConfirmed demoSlashConfig demoResolutionState).treasuryBalance = 475
    ∧ (resolveFraudConfirmed demoSlashConfig demoResolutionState).providerReputation = 80
    ∧ (resolveFraudConfirmed demoSlashConfig demoResolutionState).submitterBalance = 460
    ∧ (resolveFraudConfirmed demoSlashConfig demoResolutionState).jobStatus = "Failed" :=
  ⟨⟨by decide, by decide⟩,
    (C6_fraud_confirmed_resolution demoSlashConfig demoResolutionState
      (by decide) (by decide)).1,
    by decide, by decide, by decide, by decide, by decide, by decide⟩

/-! ## Multi-validator consensus confidence (claim C7)

The consensus engine lives in `pallets/ipfs-host/src/consensus.rs`, which is
not among the SDK sources; the SDK ships only its documentation
(README-CONSENSUS.md, "Confidence Calculation": 5/5 agree → 99.9%, 3/5 agree
→ 60%, 4/5 agree → 80%).  It is therefore modelled from the specification
(§4.4): confidence is a monotonically increasing function of the ratio of
agreeing votes, a smooth interpolation anchored at bare-majority agreement →
60% and all-N agreement → 99.9%. -/

/-- The bare majority of `n` validators: `⌊n/2⌋ + 1`. -/
def bareMajority (n : Nat) : Nat := n / 2 + 1

/-- Modelled from the spec: the confidence score of a consensus round
(pallets/ipfs-host/src/consensus.rs, absent from the SDK sources) with `n`
validators of which `k` agree, in percent.  Linear interpolation in the
agreement ratio between the anchors bare-majority → 60 and all-n → 99.9,
clamped to [0, 99.9]; when the bare majority is not below `n` (n ≤ 2) only
full agreement is meaningful and scores 99.9, anything less 0. -/
def confidence (n k : Nat) : ℚ :=
  let m := bareMajority n
  if m < n then
    max 0 (min (999 / 10)
      (60 + (399 / 10) * (((k : ℚ) - (m : ℚ)) / ((n : ℚ) - (m : ℚ)))))
  else
    if n ≤ k then 999 / 10 else 0

/-- C7: for every fixed validator count `n`, the consensus confidence is
monotonically non-decreasing in the number of agreeing votes; all-`n`
agreement scores the maximal confidence 99.9%; bare-majority agreement of 3
out of 5 scores 60%, and 4 out of 5 scores 79.95% ≈ 80%. -/
theorem C7_confidence_monotone_and_anchored :
    (∀ n k : Nat, confidence n k ≤ confidence n (k + 1))
    ∧ (∀ n : Nat, 0 < n → confidence n n = 999 / 10)
    ∧ confidence 5 3 = 60
    ∧ confidence 5 4 = 1599 / 20 := by
  refine ⟨?_, ?_, ?_, ?_⟩
  · intro n k
    rw [confidence, confidence]
    rcases Nat.lt_or_ge (bareMajority n) n with hm | hm
    · rw [if_pos hm, if_pos hm]
      have hden : (0 : ℚ) < (n : ℚ) - (bareMajority n : ℚ) := by
        have := (Nat.cast_lt (α := ℚ)).2 hm
        linarith
      have hnum : ((k : ℚ) - (bareMajority n : ℚ)) / ((n : ℚ) - (bareMajority n : ℚ))
          ≤ (((k + 1 : Nat) : ℚ) - (bareMajority n : ℚ)) / ((n : ℚ) - (bareMajority n : ℚ)) := by
        apply div_le_div_of_nonneg_right ?_ hden.le
        push_cast
        linarith
      refine max_le_max le_rfl (min_le_min le_rfl ?_)
      nlinarith
    · rw [if_neg (Nat.not_lt.2 hm), if_neg (Nat.not_lt.2 hm)]
      rcases le_or_lt n k with hk | hk
      · rw [if_pos hk, if_pos (Nat.le_succ_of_le hk)]
      · rw [if_neg (Nat.not_le.2 hk)]
        rcases le_or_lt n (k + 1) with hk1 | hk1
        · rw [if_pos hk1]
          norm_num
        · rw [if_neg (Nat.not_le.2 hk1)]
  · intro n hn
    rw [confidence]
    rcases Nat.lt_or_ge (bareMajority n) n with hm | hm
    · rw [if_pos hm]
      have hden : (0 : ℚ) < (n : ℚ) - (bareMajority n : ℚ) := by
        have := (Nat.cast_lt (α := ℚ)).2 hm
        linarith
      have hq : ((n : ℚ) - (bareMajority n : ℚ)) / ((n : ℚ) - (bareMajority n : ℚ)) = 1 :=
        div_self (ne_of_gt hden)
      rw [hq]
      norm_num
    · rw [if_neg (Nat.not_lt.2 hm), if_pos le_rfl]
  · rw [confidence]
    norm_num [bareMajority]
  · rw [confidence]
    norm_num [bareMajority]

/-- C7 witness: the theorem applied at the concrete round size n = 3 (the
README's 3-provider consensus): full agreement scores 99.9%, and confidence
at 2-of-3 does not exceed confidence at 3-of-3. -/
theorem C7_confidence_witness :
    (0 < 3) ∧ confidence 3 3 = 999 / 10 ∧ confidence 3 2 ≤ confidence 3 (2 + 1) :=
  ⟨by norm_num, C7_confidence_monotone_and_anchored.2.1 3 (by norm_num),
    C7_confidence_monotone_and_anchored.1 3 2⟩

end ComputeChainSDK
